import Mathlib

/-!
Shallow embedding of the `dev-day-zoom-out` pipeline scripts
(`get_mlb_data.py`, `get_elevation_data.py`, `snowflake_helper.py`).

Python dicts with optional nested keys are modelled as structures of
`Option` fields; a chain `d.get(a, {}).get(b, default)` becomes an
`Option.bind` chain finished by `Option.getD default`.  Python floats are
carried, never computed with, so they are modelled as `Rat`.  A Python
function that can raise is modelled in `Except`; a task returning the empty
dict sentinel `{}` is modelled as returning `none`.
-/

namespace DevDay

/-! ### MLB boxscore payload (`statsapi.boxscore_data`) -/

structure Batting where
  runs : Option Int
deriving Repr, DecidableEq

structure TeamStats where
  batting : Option Batting
deriving Repr, DecidableEq

structure TeamSide where
  teamStats : Option TeamStats
deriving Repr, DecidableEq

structure TeamInfoSide where
  teamName : Option String
  id : Option Int
deriving Repr, DecidableEq

structure TeamInfo where
  home : Option TeamInfoSide
  away : Option TeamInfoSide
deriving Repr, DecidableEq

structure GameBoxItem where
  label : Option String
  value : Option String
deriving Repr, DecidableEq

structure Boxscore where
  home : Option TeamSide
  away : Option TeamSide
  teamInfo : Option TeamInfo
  gameBoxInfo : Option (List GameBoxItem)
deriving Repr, DecidableEq

/-- `boxscore.get(side, {}).get("teamStats", {}).get("batting", {}).get("runs", ...)`:
the chained lookup up to (not including) the final default. -/
def battingRuns (side : Option TeamSide) : Option Int :=
  ((side.bind TeamSide.teamStats).bind TeamStats.batting).bind Batting.runs

/-- `boxscore.get("teamInfo", {}).get(side, {})`. -/
def infoSide (ti : Option TeamInfo) (pick : TeamInfo → Option TeamInfoSide) :
    Option TeamInfoSide :=
  ti.bind pick

/-- The `next((item.get("value", "Unknown") for item in ... if item.get("label") == "T"),
"Unknown")` computation of `fetch_game_score`. -/
def timeValue (items : List GameBoxItem) : String :=
  match items.find? (fun it => it.label == some "T") with
  | some it => it.value.getD "Unknown"
  | none => "Unknown"

/-! ### The flat `GAME_SCORES` record built by `fetch_game_score` -/

structure ScoreData where
  game_id : Int
  home_team_id : Int
  home_team : String
  away_team_id : Int
  away_team : String
  home_score : Int
  away_score : Int
  score_differential : Int
  game_time : String
deriving Repr, DecidableEq

/-- The transformer step of `fetch_game_score` (lines 40-69): extraction with
per-field defaults and the derived absolute score differential.  A total
function: no payload shape makes it raise. -/
def transformScore (game_id : Int) (b : Boxscore) : ScoreData :=
  let home_score := (battingRuns b.home).getD 0
  let away_score := (battingRuns b.away).getD 0
  { game_id := game_id
    home_team_id := ((infoSide b.teamInfo TeamInfo.home).bind TeamInfoSide.id).getD 0
    home_team := ((infoSide b.teamInfo TeamInfo.home).bind TeamInfoSide.teamName).getD "Unknown"
    away_team_id := ((infoSide b.teamInfo TeamInfo.away).bind TeamInfoSide.id).getD 0
    away_team := ((infoSide b.teamInfo TeamInfo.away).bind TeamInfoSide.teamName).getD "Unknown"
    home_score := home_score
    away_score := away_score
    score_differential := |home_score - away_score|
    game_time := timeValue (b.gameBoxInfo.getD []) }

/-- `fetch_game_score` after the API call: `if not boxscore: return {}` (the
empty "no data" sentinel, modelled as `none`), else the transformed record. -/
def fetch_game_score (game_id : Int) (boxscore : Option Boxscore) : Option ScoreData :=
  boxscore.map (transformScore game_id)

/-! ### MLB game payload (`statsapi.get("game", ...)`) -/

structure Coordinates where
  latitude : Option Rat
  longitude : Option Rat
deriving Repr, DecidableEq

structure VenueLocation where
  city : Option String
  state : Option String
  postalCode : Option String
  country : Option String
  elevation : Option Rat
  defaultCoordinates : Option Coordinates
deriving Repr, DecidableEq

structure Venue where
  id : Option Int
  name : Option String
  location : Option VenueLocation
deriving Repr, DecidableEq

structure GameData where
  venue : Option Venue
deriving Repr, DecidableEq

structure GameResp where
  gameData : Option GameData
deriving Repr, DecidableEq

structure LocationData where
  game_id : Int
  venue_id : Int
  venue_name : String
  venue_city : String
  venue_state : String
  venue_postal_code : String
  venue_country : String
  venue_latitude : Rat
  venue_longitude : Rat
  venue_elevation : Rat
deriving Repr, DecidableEq

/-- The transformer step of `fetch_game_location` (lines 81-100).  The
`venue_id` field keeps Python truthiness: `int(venue.get("id", 0)) if
venue.get("id") else 0` maps a missing or zero id to 0. -/
def transformLocation (game_id : Int) (g : GameResp) : LocationData :=
  let venue := (g.gameData.bind GameData.venue)
  let location := venue.bind Venue.location
  let default_coordinates := location.bind VenueLocation.defaultCoordinates
  { game_id := game_id
    venue_id :=
      match venue.bind Venue.id with
      | some i => if i == 0 then 0 else i
      | none => 0
    venue_name := (venue.bind Venue.name).getD "Unknown"
    venue_city := (location.bind VenueLocation.city).getD "Unknown"
    venue_state := (location.bind VenueLocation.state).getD "Unknown"
    venue_postal_code := (location.bind VenueLocation.postalCode).getD "Unknown"
    venue_country := (location.bind VenueLocation.country).getD "Unknown"
    venue_latitude := (default_coordinates.bind Coordinates.latitude).getD 0
    venue_longitude := (default_coordinates.bind Coordinates.longitude).getD 0
    venue_elevation := (location.bind VenueLocation.elevation).getD 0 }

/-- `fetch_game_location` after the API call: `if not game: return {}`. -/
def fetch_game_location (game_id : Int) (game : Option GameResp) : Option LocationData :=
  game.map (transformLocation game_id)

/-! ### Retry runner

Modelled from the spec: the workflow engine that executes the
`retries=5, retry_delay_seconds=exponential_backoff(...)` decoration of
`fetch_game_score` / `fetch_game_location` is a third-party runtime the spec
declares out of scope and describes only by its interface — "Policy: up to 5
attempts", a transient failure is retried, a returned value (even the empty
sentinel) is a success and ends the run.  `attempt k` is the outcome of the
k-th attempt (`none` = transient failure, `some r` = the task returned `r`).
-/

/-- Modelled from the spec: the engine-side retry policy applied to the fetch
tasks — up to 5 attempts in total, stopping at the first attempt that
returns a value; returns the final outcome together with the total number of
attempts made. -/
def fetchWithRetryPolicy (attempt : Nat → Option α) : Option α × Nat :=
  match attempt 0 with
  | some v => (some v, 1)
  | none =>
    match attempt 1 with
    | some v => (some v, 2)
    | none =>
      match attempt 2 with
      | some v => (some v, 3)
      | none =>
        match attempt 3 with
        | some v => (some v, 4)
        | none =>
          match attempt 4 with
          | some v => (some v, 5)
          | none => (none, 5)

/-! ### Orchestrating flows (`get_game_scores`, `get_game_locations_flow`)

Each flow loops over the game ids, calls the fetch task, and appends the
result when it is not the empty sentinel.  The flow body contains no
exception handler, so a fetch task that fails terminally (modelled as
`Except.error`) propagates out of the flow. -/

def get_game_scores (fetch : String → Except ε (Option ScoreData)) :
    List String → Except ε (List ScoreData)
  | [] => Except.ok []
  | gid :: rest =>
    match fetch gid with
    | Except.error e => Except.error e
    | Except.ok none => get_game_scores fetch rest
    | Except.ok (some d) => (get_game_scores fetch rest).map (fun l => d :: l)

def get_game_locations_flow (fetch : String → Except ε (Option LocationData)) :
    List String → Except ε (List LocationData)
  | [] => Except.ok []
  | gid :: rest =>
    match fetch gid with
    | Except.error e => Except.error e
    | Except.ok none => get_game_locations_flow fetch rest
    | Except.ok (some d) => (get_game_locations_flow fetch rest).map (fun l => d :: l)

/-! ### `get_recent_games` -/

/-- `get_recent_games`: per team, the schedule's game ids are stringified and
collected; `list(set(all_game_ids))` removes duplicates (modelled as
`List.dedup`; Python's set iteration order is unspecified, and the spec
requires no order). -/
def get_recent_games (schedule : Int → List Int) (team_ids : List Int) : List String :=
  ((team_ids.map (fun t => (schedule t).map toString)).flatten).dedup

/-! ### Warehouse loader (`snowflake_helper.py`) -/

/-- One elevation_data row, as bound by `setup_table`. -/
structure ElevRow where
  city : String
  lat : Rat
  lon : Rat
  elevation : Rat
deriving Repr, DecidableEq

/-- A write operation issued to the Snowflake connector. -/
inductive SfOp where
  | createScores
  | createLocations
  | createElevation
  | insertScores (rows : List ScoreData)
  | insertLocations (rows : List LocationData)
  | insertElevation (rows : List ElevRow)
deriving Repr, DecidableEq

/-- `insert_game_scores`: an empty batch only logs and returns (no writes);
otherwise one parameterized batch insert is executed, and a connector
failure (`connFail = some e`) is logged and re-raised. -/
def insert_game_scores (connFail : Option String) (game_scores : List ScoreData) :
    Except String (List SfOp) :=
  if game_scores.isEmpty then Except.ok []
  else
    match connFail with
    | some e => Except.error e
    | none => Except.ok [SfOp.insertScores game_scores]

/-- `insert_game_locations`: same shape as `insert_game_scores`. -/
def insert_game_locations (connFail : Option String) (game_locations : List LocationData) :
    Except String (List SfOp) :=
  if game_locations.isEmpty then Except.ok []
  else
    match connFail with
    | some e => Except.error e
    | none => Except.ok [SfOp.insertLocations game_locations]

/-! ### Elevation enrichment (`get_elevation_data.py`) -/

/-- The rows `setup_table` binds into its `INSERT INTO elevation_data`
batch: `zip(locations, elevation)` pairs positionally, each row taking
city/lat/lon from the location and the elevation from the other list. -/
def setup_table_rows (locations : List (String × Rat × Rat)) (elevation : List Rat) :
    List ElevRow :=
  (locations.zip elevation).map (fun p => ⟨p.1.1, p.1.2.1, p.1.2.2, p.2⟩)

/-- `setup_table`: create-if-absent, then the positional batch insert.
`emitOk` is the outcome of the trailing lineage emission (see
`main_elevation_run`); it is not consulted by the writes. -/
def setup_table (emitOk : Bool) (locations : List (String × Rat × Rat))
    (elevation : List Rat) : List SfOp × Bool :=
  ([SfOp.createElevation, SfOp.insertElevation (setup_table_rows locations elevation)], emitOk)

/-- The elevation list built by `main_elevation`'s sequential loop
`for _, lat, long in locations: elevations.append(await get_elevation(lat, long))`. -/
def elevationsFor (elevLookup : Rat → Rat → Rat) (locations : List (String × Rat × Rat)) :
    List Rat :=
  locations.map (fun loc => elevLookup loc.2.1 loc.2.2)

/-- `main_elevation` restricted to its data result: the rows handed to
`setup_table` for insertion. -/
def main_elevation (elevLookup : Rat → Rat → Rat)
    (locations : List (String × Rat × Rat)) : List ElevRow :=
  setup_table_rows locations (elevationsFor elevLookup locations)

/-- Modelled from the spec: `emit_lineage_event` is an out-of-scope
"best-effort" observer — it reports success or failure of the emission but
must not fail the pipeline, so it is a function `emit : String → Bool`
(event name to success flag) that never raises.  The run returns the rows
`setup_table` inserts together with the emission outcomes, in call order
(`get_city_data`, one per `get_elevation` call, `setup_table`); the
repository code ignores every outcome. -/
def main_elevation_run (elevLookup : Rat → Rat → Rat) (emit : String → Bool)
    (locations : List (String × Rat × Rat)) : List ElevRow × List Bool :=
  let cityEmit := emit "Get Game Locations to Snowflake"
  let fetched := locations.map
    (fun loc => (elevLookup loc.2.1 loc.2.2, emit "get_elevation_data"))
  let elevations := fetched.map Prod.fst
  let upload := setup_table (emit "Upload Elevation Data to Snowflake") locations elevations
  (setup_table_rows locations elevations, cityEmit :: (fetched.map Prod.snd ++ [upload.2]))

/-! ### Concrete payloads used by examples and witnesses -/

/-- The fully-empty boxscore payload: every optional field absent. -/
def emptyBoxscore : Boxscore := ⟨none, none, none, none⟩

/-- The fully-empty game payload. -/
def emptyGameResp : GameResp := ⟨none⟩

/-- A boxscore whose only content is a `gameBoxInfo` item labelled `"T"`
with its value missing. -/
def tOnlyBoxscore : Boxscore := ⟨none, none, none, some [⟨some "T", none⟩]⟩

/-- A boxscore carrying only the two run totals. -/
def runsBox (h a : Int) : Boxscore :=
  ⟨some ⟨some ⟨some ⟨some h⟩⟩⟩, some ⟨some ⟨some ⟨some a⟩⟩⟩, none, none⟩

/-- A concrete score record, used by orchestration examples. -/
def recB : ScoreData := transformScore 2 emptyBoxscore

/-- A concrete location record, used by orchestration examples. -/
def recL : LocationData := transformLocation 2 emptyGameResp

/-! # Theorems -/

/-- **C9.** For every raw payload, the `score_differential` field produced by
`fetch_game_score`'s transformer equals the absolute difference of the
`home_score` and `away_score` fields and is non-negative; in particular
home=5, away=3 gives 2 and home=3, away=5 gives 2. -/
theorem score_differential_is_abs (gid : Int) (b : Boxscore) :
    (transformScore gid b).score_differential =
      |(transformScore gid b).home_score - (transformScore gid b).away_score| ∧
    0 ≤ (transformScore gid b).score_differential ∧
    (transformScore 1 (runsBox 5 3)).score_differential = 2 ∧
    (transformScore 1 (runsBox 3 5)).score_differential = 2 := by
  refine ⟨rfl, ?_, by decide, by decide⟩
  simp only [transformScore]
  exact abs_nonneg _

/-- **C10.** `setup_table` issues the idempotent create followed by one batch
insert whose row list is the positional zip of locations and elevations:
exactly `min n m` rows are inserted, excess entries of the longer list being
silently dropped (the zip is total, no error path). -/
theorem setup_table_inserts_min_rows (emitOk : Bool)
    (locations : List (String × Rat × Rat)) (elevation : List Rat) :
    (setup_table emitOk locations elevation).1 =
      [SfOp.createElevation, SfOp.insertElevation (setup_table_rows locations elevation)] ∧
    (setup_table_rows locations elevation).length = min locations.length elevation.length := by
  refine ⟨rfl, ?_⟩
  simp [setup_table_rows, List.length_zip]

/-- **C8.** Inserting an empty batch performs zero writes and returns without
raising, whatever the connector would have done. -/
theorem insert_empty_batch_is_noop (connFail : Option String) :
    insert_game_scores connFail [] = Except.ok [] ∧
    insert_game_locations connFail [] = Except.ok [] :=
  ⟨rfl, rfl⟩

/-- **C7.** Lineage emission is best-effort: the rows produced by the
elevation pipeline are identical under any two emission-outcome functions,
and equal the emission-free `main_elevation` result — the core
fetch/transform/load result does not depend on whether any
`emit_lineage_event` call succeeds. -/
theorem lineage_emission_best_effort (elevLookup : Rat → Rat → Rat)
    (emit₁ emit₂ : String → Bool) (locations : List (String × Rat × Rat)) :
    (main_elevation_run elevLookup emit₁ locations).1 =
      (main_elevation_run elevLookup emit₂ locations).1 ∧
    (main_elevation_run elevLookup emit₁ locations).1 = main_elevation elevLookup locations := by
  constructor <;>
    simp [main_elevation_run, main_elevation, elevationsFor, List.map_map, Function.comp_def]

/-- **C5.** `get_recent_games` returns each game id at most once: its result
is duplicate-free, a string is in it exactly when it is some team's
scheduled game id, and every member occurs exactly once — so the
orchestrator's single pass dispatches each unique identifier exactly once. -/
theorem get_recent_games_nodup (schedule : Int → List Int) (team_ids : List Int) :
    (get_recent_games schedule team_ids).Nodup ∧
    (∀ g, g ∈ get_recent_games schedule team_ids ↔
      ∃ t ∈ team_ids, ∃ i ∈ schedule t, toString i = g) ∧
    (∀ g, g ∈ get_recent_games schedule team_ids →
      (get_recent_games schedule team_ids).count g = 1) := by
  refine ⟨List.nodup_dedup _, ?_, ?_⟩
  · intro g
    simp [get_recent_games, List.mem_flatten]
  · intro g hg
    exact List.count_eq_one_of_mem (List.nodup_dedup _) hg

/-- Witness for C5 at a concrete schedule: team 1 has games 10 and 11, team
2 has game 11; the id `"11"` is dispatched exactly once. -/
theorem get_recent_games_nodup_witness :
    (get_recent_games (fun t => if t = 1 then [10, 11] else [11]) [1, 2]).count "11" = 1 :=
  (get_recent_games_nodup (fun t => if t = 1 then [10, 11] else [11]) [1, 2]).2.2
    "11" (by decide)

/-- **C1.** Under the spec's retry policy (up to 5 attempts), a fetch whose
first `j` attempts fail transiently returns the successful record of attempt
`j` with `j + 1` total attempts when `j < 5`, and surfaces the terminal
failure after exactly 5 attempts when every attempt fails. -/
theorem retry_policy_five_attempts (attempt : Nat → Option α) (j : Nat) (v : α)
    (hfail : ∀ k, k < j → attempt k = none) :
    (j < 5 → attempt j = some v → fetchWithRetryPolicy attempt = (some v, j + 1)) ∧
    (5 ≤ j → fetchWithRetryPolicy attempt = (none, 5)) := by
  constructor
  · intro hj hv
    interval_cases j
    · simp [fetchWithRetryPolicy, hv]
    · simp [fetchWithRetryPolicy, hfail 0 (by omega), hv]
    · simp [fetchWithRetryPolicy, hfail 0 (by omega), hfail 1 (by omega), hv]
    · simp [fetchWithRetryPolicy, hfail 0 (by omega), hfail 1 (by omega), hfail 2 (by omega), hv]
    · simp [fetchWithRetryPolicy, hfail 0 (by omega), hfail 1 (by omega), hfail 2 (by omega),
        hfail 3 (by omega), hv]
  · intro hj
    simp [fetchWithRetryPolicy, hfail 0 (by omega), hfail 1 (by omega), hfail 2 (by omega),
      hfail 3 (by omega), hfail 4 (by omega)]

/-- Witness for C1: a fetcher failing transiently on its first two attempts
succeeds on the third, with 3 total attempts. -/
theorem retry_policy_five_attempts_witness :
    fetchWithRetryPolicy (fun k => if k < 2 then none else some 7) = (some 7, 3) :=
  (retry_policy_five_attempts (fun k => if k < 2 then none else some 7) 2 7
    (by decide)).1 (by decide) (by decide)

/-- **C6.** An empty API response is a non-exceptional outcome:
`fetch_game_score` maps it to the empty sentinel without raising, the retry
runner stops after a single attempt (no retry), and the orchestrator skips
the sentinel — the identifier contributes nothing to the output while the
remaining identifiers' results are unchanged. -/
theorem empty_response_no_retry_skipped {ε : Type}
    (attempt : Nat → Option (Option ScoreData)) (h0 : attempt 0 = some none)
    (fetch : String → Except ε (Option ScoreData)) (gid : String) (ids : List String)
    (hf : fetch gid = Except.ok none) :
    (∀ g : Int, fetch_game_score g none = none) ∧
    fetchWithRetryPolicy attempt = (some none, 1) ∧
    get_game_scores fetch (gid :: ids) = get_game_scores fetch ids := by
  refine ⟨fun g => rfl, ?_, ?_⟩
  · simp [fetchWithRetryPolicy, h0]
  · simp [get_game_scores, hf]

/-- Witness for C6: with every response empty, the retry runner makes one
attempt and the orchestrator output for `["1"]` matches the output for no
identifiers at all. -/
theorem empty_response_no_retry_skipped_witness :
    fetchWithRetryPolicy (fun _ => some (none : Option ScoreData)) = (some none, 1) ∧
    get_game_scores (fun _ => Except.ok (none : Option ScoreData)) ["1"] =
      get_game_scores (fun _ => (Except.ok (none : Option ScoreData) : Except Unit _)) [] := by
  have h := empty_response_no_retry_skipped (ε := Unit) (fun _ => some none) rfl
    (fun _ => Except.ok none) "1" [] rfl
  exact ⟨h.2.1, h.2.2⟩

/-- **C3.** The elevation-enrichment insert pairs positionally: row `i` of
the `setup_table` batch carries the city/lat/lon of input row `i` and the
elevation at position `i` of the results list; through `main_elevation`,
row `i` carries the elevation looked up for input row `i`'s coordinates. -/
theorem elevation_rows_positional (locations : List (String × Rat × Rat))
    (elevation : List Rat) (i : Nat)
    (h : i < (setup_table_rows locations elevation).length) :
    ∃ (hl : i < locations.length) (he : i < elevation.length),
      (setup_table_rows locations elevation).get ⟨i, h⟩ =
        { city := (locations.get ⟨i, hl⟩).1, lat := (locations.get ⟨i, hl⟩).2.1,
          lon := (locations.get ⟨i, hl⟩).2.2, elevation := elevation.get ⟨i, he⟩ } ∧
      ∀ elevLookup : Rat → Rat → Rat,
        ∃ hm : i < (main_elevation elevLookup locations).length,
          (main_elevation elevLookup locations).get ⟨i, hm⟩ =
            { city := (locations.get ⟨i, hl⟩).1, lat := (locations.get ⟨i, hl⟩).2.1,
              lon := (locations.get ⟨i, hl⟩).2.2,
              elevation :=
                elevLookup (locations.get ⟨i, hl⟩).2.1 (locations.get ⟨i, hl⟩).2.2 } := by
  have hlen : (setup_table_rows locations elevation).length =
      min locations.length elevation.length := by
    simp [setup_table_rows, List.length_zip]
  have hl : i < locations.length := by rw [hlen] at h; omega
  have he : i < elevation.length := by rw [hlen] at h; omega
  refine ⟨hl, he, ?_, ?_⟩
  · simp [setup_table_rows, List.get_eq_getElem, List.getElem_map, List.getElem_zip]
  · intro elevLookup
    have hm : i < (main_elevation elevLookup locations).length := by
      simp only [main_elevation, setup_table_rows, elevationsFor, List.length_map,
        List.length_zip]
      omega
    refine ⟨hm, ?_⟩
    simp [main_elevation, setup_table_rows, elevationsFor, List.get_eq_getElem,
      List.getElem_map, List.getElem_zip]

/-- Witness for C3 at the spec's example: input `[("NYC",40.7,-74.0),
("LA",34.0,-118.2)]` with elevations `[10.0, 89.0]` pairs NYC with 10.0 and
LA with 89.0. -/
theorem elevation_rows_positional_witness :
    (setup_table_rows [("NYC", 40.7, -74.0), ("LA", 34.0, -118.2)] [10.0, 89.0]).get
        ⟨0, by decide⟩ =
      { city := "NYC", lat := 40.7, lon := -74.0, elevation := 10.0 } ∧
    (setup_table_rows [("NYC", 40.7, -74.0), ("LA", 34.0, -118.2)] [10.0, 89.0]).get
        ⟨1, by decide⟩ =
      { city := "LA", lat := 34.0, lon := -118.2, elevation := 89.0 } := by
  obtain ⟨hl0, he0, h0, -⟩ :=
    elevation_rows_positional [("NYC", 40.7, -74.0), ("LA", 34.0, -118.2)] [10.0, 89.0]
      0 (by decide)
  obtain ⟨hl1, he1, h1, -⟩ :=
    elevation_rows_positional [("NYC", 40.7, -74.0), ("LA", 34.0, -118.2)] [10.0, 89.0]
      1 (by decide)
  exact ⟨h0, h1⟩

/-- **C4.** The transformer steps of `fetch_game_score` and
`fetch_game_location` are total functions (no payload shape raises), and
every field whose extraction chain is absent from the raw payload takes its
documented default: `"Unknown"` for strings, 0 for integers, 0.0 for floats
— latitude and longitude included. -/
theorem transform_missing_fields_default (gid : Int) (b : Boxscore) (g : GameResp) :
    (battingRuns b.home = none → (transformScore gid b).home_score = 0) ∧
    (battingRuns b.away = none → (transformScore gid b).away_score = 0) ∧
    ((infoSide b.teamInfo TeamInfo.home).bind TeamInfoSide.teamName = none →
      (transformScore gid b).home_team = "Unknown") ∧
    ((infoSide b.teamInfo TeamInfo.home).bind TeamInfoSide.id = none →
      (transformScore gid b).home_team_id = 0) ∧
    ((infoSide b.teamInfo TeamInfo.away).bind TeamInfoSide.teamName = none →
      (transformScore gid b).away_team = "Unknown") ∧
    ((infoSide b.teamInfo TeamInfo.away).bind TeamInfoSide.id = none →
      (transformScore gid b).away_team_id = 0) ∧
    ((b.gameBoxInfo.getD []).find? (fun it => it.label == some "T") = none →
      (transformScore gid b).game_time = "Unknown") ∧
    (∀ it, (b.gameBoxInfo.getD []).find? (fun it2 => it2.label == some "T") = some it →
      it.value = none → (transformScore gid b).game_time = "Unknown") ∧
    ((g.gameData.bind GameData.venue).bind Venue.id = none →
      (transformLocation gid g).venue_id = 0) ∧
    ((g.gameData.bind GameData.venue).bind Venue.name = none →
      (transformLocation gid g).venue_name = "Unknown") ∧
    (((g.gameData.bind GameData.venue).bind Venue.location).bind VenueLocation.city = none →
      (transformLocation gid g).venue_city = "Unknown") ∧
    (((g.gameData.bind GameData.venue).bind Venue.location).bind VenueLocation.state = none →
      (transformLocation gid g).venue_state = "Unknown") ∧
    (((g.gameData.bind GameData.venue).bind Venue.location).bind VenueLocation.postalCode =
        none → (transformLocation gid g).venue_postal_code = "Unknown") ∧
    (((g.gameData.bind GameData.venue).bind Venue.location).bind VenueLocation.country = none →
      (transformLocation gid g).venue_country = "Unknown") ∧
    ((((g.gameData.bind GameData.venue).bind Venue.location).bind
        VenueLocation.defaultCoordinates).bind Coordinates.latitude = none →
      (transformLocation gid g).venue_latitude = 0) ∧
    ((((g.gameData.bind GameData.venue).bind Venue.location).bind
        VenueLocation.defaultCoordinates).bind Coordinates.longitude = none →
      (transformLocation gid g).venue_longitude = 0) ∧
    (((g.gameData.bind GameData.venue).bind Venue.location).bind VenueLocation.elevation =
        none → (transformLocation gid g).venue_elevation = 0) := by
  have htime : ∀ it,
      (b.gameBoxInfo.getD []).find? (fun it2 => it2.label == some "T") = some it →
      it.value = none → (transformScore gid b).game_time = "Unknown" := by
    intro it hit hv
    simp [transformScore, timeValue, hit, hv]
  refine ⟨fun h => ?_, fun h => ?_, fun h => ?_, fun h => ?_, fun h => ?_, fun h => ?_,
    fun h => ?_, htime, fun h => ?_, fun h => ?_, fun h => ?_, fun h => ?_,
    fun h => ?_, fun h => ?_, fun h => ?_, fun h => ?_, fun h => ?_⟩ <;>
    simp [transformScore, transformLocation, timeValue, h]

/-- Witness for C4: the fully-empty payloads take every default, and a
boxscore whose `"T"` item lacks its value still yields `"Unknown"`. -/
theorem transform_missing_fields_default_witness :
    (transformScore 7 emptyBoxscore).home_score = 0 ∧
    (transformScore 7 emptyBoxscore).away_score = 0 ∧
    (transformScore 7 emptyBoxscore).home_team = "Unknown" ∧
    (transformScore 7 emptyBoxscore).home_team_id = 0 ∧
    (transformScore 7 emptyBoxscore).away_team = "Unknown" ∧
    (transformScore 7 emptyBoxscore).away_team_id = 0 ∧
    (transformScore 7 emptyBoxscore).game_time = "Unknown" ∧
    (transformScore 7 tOnlyBoxscore).game_time = "Unknown" ∧
    (transformLocation 7 emptyGameResp).venue_id = 0 ∧
    (transformLocation 7 emptyGameResp).venue_name = "Unknown" ∧
    (transformLocation 7 emptyGameResp).venue_city = "Unknown" ∧
    (transformLocation 7 emptyGameResp).venue_state = "Unknown" ∧
    (transformLocation 7 emptyGameResp).venue_postal_code = "Unknown" ∧
    (transformLocation 7 emptyGameResp).venue_country = "Unknown" ∧
    (transformLocation 7 emptyGameResp).venue_latitude = 0 ∧
    (transformLocation 7 emptyGameResp).venue_longitude = 0 ∧
    (transformLocation 7 emptyGameResp).venue_elevation = 0 := by
  obtain ⟨a1, a2, a3, a4, a5, a6, a7, -, b1, b2, b3, b4, b5, b6, b7, b8, b9⟩ :=
    transform_missing_fields_default 7 emptyBoxscore emptyGameResp
  obtain ⟨-, -, -, -, -, -, -, c8, -⟩ :=
    transform_missing_fields_default 7 tOnlyBoxscore emptyGameResp
  exact ⟨a1 rfl, a2 rfl, a3 rfl, a4 rfl, a5 rfl, a6 rfl, a7 rfl,
    c8 ⟨some "T", none⟩ (by decide) rfl, b1 rfl, b2 rfl, b3 rfl, b4 rfl, b5 rfl, b6 rfl,
    b7 rfl, b8 rfl, b9 rfl⟩

/-- A fetcher that fails terminally on game id `"a"` and succeeds elsewhere. -/
def badFetch : String → Except Unit (Option ScoreData) :=
  fun gid => if gid = "a" then Except.error () else Except.ok (some recB)

/-- **C2 counterexample.** With the fetch for `"a"` failing terminally and
the fetch for `"b"` succeeding, `get_game_scores ["a", "b"]` does not skip
`"a"` and return `"b"`'s record: the flow body has no exception handler, so
the terminal failure propagates and no record list is produced at all. -/
theorem orchestrator_skip_counterexample :
    get_game_scores badFetch ["a", "b"] = Except.error () ∧
    get_game_scores badFetch ["a", "b"] ≠ Except.ok [recB] := by
  have h : get_game_scores badFetch ["a", "b"] = Except.error () := by
    simp [get_game_scores, badFetch]
  exact ⟨h, by simp [h]⟩

/-- **C2 amended.** The orchestrators contain only empty results, not
terminal failures: when no fetch raises, each flow returns exactly the
non-empty records in input order (empty-sentinel identifiers skipped,
the rest unaffected); but when any identifier's fetch fails terminally, the
uncaught exception propagates and the whole flow run fails instead of
skipping that identifier. -/
theorem orchestrator_skips_empty_fails_on_error {ε : Type}
    (fetch : String → Except ε (Option ScoreData))
    (fetchL : String → Except ε (Option LocationData)) (ids : List String) :
    ((∀ gid ∈ ids, ∃ r, fetch gid = Except.ok r) →
      get_game_scores fetch ids = Except.ok (ids.filterMap (fun gid =>
        match fetch gid with
        | Except.ok (some d) => some d
        | _ => none))) ∧
    ((∃ gid ∈ ids, ∃ e, fetch gid = Except.error e) →
      ∃ e, get_game_scores fetch ids = Except.error e) ∧
    ((∀ gid ∈ ids, ∃ r, fetchL gid = Except.ok r) →
      get_game_locations_flow fetchL ids = Except.ok (ids.filterMap (fun gid =>
        match fetchL gid with
        | Except.ok (some d) => some d
        | _ => none))) ∧
    ((∃ gid ∈ ids, ∃ e, fetchL gid = Except.error e) →
      ∃ e, get_game_locations_flow fetchL ids = Except.error e) := by
  refine ⟨?_, ?_, ?_, ?_⟩
  · induction ids with
    | nil => intro _; rfl
    | cons gid rest ih =>
      intro hok
      obtain ⟨r, hr⟩ := hok gid (by simp)
      have ih' := ih (fun g hg => hok g (by simp [hg]))
      cases r with
      | none => simp [get_game_scores, hr, ih']
      | some d => simp [get_game_scores, hr, ih', Except.map]
  · induction ids with
    | nil => rintro ⟨gid, hmem, -⟩; simp at hmem
    | cons g rest ih =>
      rintro ⟨gid, hmem, e, he⟩
      cases hfg : fetch g with
      | error eg => exact ⟨eg, by simp [get_game_scores, hfg]⟩
      | ok r =>
        have hrest : ∃ gid ∈ rest, ∃ e, fetch gid = Except.error e := by
          rcases List.mem_cons.mp hmem with rfl | hm
          · rw [he] at hfg; cases hfg
          · exact ⟨gid, hm, e, he⟩
        obtain ⟨e2, he2⟩ := ih hrest
        cases r with
        | none => exact ⟨e2, by simp [get_game_scores, hfg, he2]⟩
        | some d => exact ⟨e2, by simp [get_game_scores, hfg, he2, Except.map]⟩
  · induction ids with
    | nil => intro _; rfl
    | cons gid rest ih =>
      intro hok
      obtain ⟨r, hr⟩ := hok gid (by simp)
      have ih' := ih (fun g hg => hok g (by simp [hg]))
      cases r with
      | none => simp [get_game_locations_flow, hr, ih']
      | some d => simp [get_game_locations_flow, hr, ih', Except.map]
  · induction ids with
    | nil => rintro ⟨gid, hmem, -⟩; simp at hmem
    | cons g rest ih =>
      rintro ⟨gid, hmem, e, he⟩
      cases hfg : fetchL g with
      | error eg => exact ⟨eg, by simp [get_game_locations_flow, hfg]⟩
      | ok r =>
        have hrest : ∃ gid ∈ rest, ∃ e, fetchL gid = Except.error e := by
          rcases List.mem_cons.mp hmem with rfl | hm
          · rw [he] at hfg; cases hfg
          · exact ⟨gid, hm, e, he⟩
        obtain ⟨e2, he2⟩ := ih hrest
        cases r with
        | none => exact ⟨e2, by simp [get_game_locations_flow, hfg, he2]⟩
        | some d => exact ⟨e2, by simp [get_game_locations_flow, hfg, he2, Except.map]⟩

/-- Witness for the amended C2: with all fetches returning the empty
sentinel the flows return the empty record list, and with all fetches
failing terminally the flows surface an error. -/
theorem orchestrator_skips_empty_fails_on_error_witness :
    get_game_scores (fun _ => (Except.ok none : Except Unit (Option ScoreData))) ["1"] =
      Except.ok [] ∧
    (∃ e, get_game_scores (fun _ => (Except.error () : Except Unit (Option ScoreData)))
      ["1"] = Except.error e) ∧
    get_game_locations_flow (fun _ => (Except.ok none : Except Unit (Option LocationData)))
      ["1"] = Except.ok [] ∧
    (∃ e, get_game_locations_flow
      (fun _ => (Except.error () : Except Unit (Option LocationData))) ["1"] =
        Except.error e) := by
  have hok := orchestrator_skips_empty_fails_on_error (ε := Unit)
    (fun _ => Except.ok none) (fun _ => Except.ok none) ["1"]
  have herr := orchestrator_skips_empty_fails_on_error (ε := Unit)
    (fun _ => Except.error ()) (fun _ => Except.error ()) ["1"]
  refine ⟨?_, ?_, ?_, ?_⟩
  · simpa using hok.1 (fun gid _ => ⟨none, rfl⟩)
  · exact herr.2.1 ⟨"1", by simp, (), rfl⟩
  · simpa using hok.2.2.1 (fun gid _ => ⟨none, rfl⟩)
  · exact herr.2.2.2 ⟨"1", by simp, (), rfl⟩

end DevDay
